import Mathlib

/-!
Shallow embedding of `src/esp32/CadIOT-v4/AzIoTSasToken.cpp`.

The file implements a SAS-token generator for an ESP32 device:
`AzIoTSasToken::Generate` computes an expiration epoch, builds a
string-to-sign through the Azure SDK canonicalizer, base64-decodes the
device key, HMAC-SHA256-signs, base64-encodes the signature and formats
the final token.  `IsExpired` compares the current time against the
stored expiration; `Get` returns the current token view.

Machine integers are modelled as `Nat` with explicit `% 2 ^ 32` where the
C code performs 32-bit (`unsigned int` / `uint32_t`) arithmetic.  The
external collaborators (Azure SDK canonicalizer and token formatter,
mbedtls base64 codec and HMAC) are not part of this repository; following
the spec they are pluggable interfaces, modelled as an abstract
environment record `ExternalEnv`.  Byte buffers are modelled as lists of
bytes plus their capacities.
-/

/-- The modulus of `uint32_t` / `unsigned int` arithmetic, `2 ^ 32`. -/
def U32 : Nat := 4294967296

/-- External collaborators of the generator, as functions.

* `getSignature e cap`: `az_iot_hub_client_sas_get_signature` with the
  captured hub client, expiration `e` (a `uint64_t` value) and a scratch
  buffer of capacity `cap`; on success it yields the string-to-sign bytes.
* `b64decode src cap`: `mbedtls_base64_decode` of `src` into a buffer of
  capacity `cap`; `none` models a nonzero return code.
* `hmac key msg`: the 32 bytes `mbedtls` HMAC-SHA256 writes for key `key`
  and message `msg` (a total deterministic function, as in the source's
  `hmac_sha256_sign` wrapper which ignores all return codes).
* `b64encode src cap`: `mbedtls_base64_encode` into a buffer of capacity
  `cap`, as wrapped by the source's `base64_encode`.
* `getPassword e sig cap`: `az_iot_hub_client_sas_get_password` with the
  captured hub client, expiration `e`, base64 signature `sig`, empty key
  name and an output buffer of capacity `cap`; on success it yields the
  password (token) bytes of length `pwd_len`. -/
structure ExternalEnv where
  getSignature : Nat → Nat → Option (List Nat)
  b64decode : List Nat → Nat → Option (List Nat)
  hmac : List Nat → List Nat → List Nat
  b64encode : List Nat → Nat → Option (List Nat)
  getPassword : Nat → List Nat → Nat → Option (List Nat)

/-- The state of an `AzIoTSasToken` object: the borrowed device key, the
capacities of the two caller-owned scratch buffers, the current token
view `sasToken` and the stored `expirationUnixTime` (a `uint32_t`
value).  The `az_iot_hub_client*` pointer is captured inside
`ExternalEnv`'s closures. -/
structure AzIoTSasToken where
  deviceKey : List Nat
  signatureBufferSize : Nat
  sasTokenBufferSize : Nat
  sasToken : List Nat
  expirationUnixTime : Nat
  deriving DecidableEq

/-- The constructor `AzIoTSasToken::AzIoTSasToken` (source lines 52-59):
records the key and buffers and sets `sasToken = AZ_SPAN_EMPTY`,
`expirationUnixTime = 0`. -/
def AzIoTSasToken.construct (deviceKey : List Nat)
    (signatureBufferSize sasTokenBufferSize : Nat) : AzIoTSasToken :=
  { deviceKey := deviceKey
    signatureBufferSize := signatureBufferSize
    sasTokenBufferSize := sasTokenBufferSize
    sasToken := []
    expirationUnixTime := 0 }

/-- `AzIoTSasToken::Generate` (source lines 61-109).  `now` is the value
read from `get_unix_time_now()` at this call, reduced mod `2 ^ 32` as by
the `uint32_t` cast; `expiryTimeInMinutes * 60` is `unsigned int`
multiplication, hence reduced mod `2 ^ 32` before widening to
`uint64_t`; the field store `expirationUnixTime = (uint32_t)expiration`
truncates again.  Returns the `int` result code together with the
post-state: `1` from each of the four fallible stages, `0` on success,
and only the success path assigns `sasToken`. -/
def AzIoTSasToken.Generate (env : ExternalEnv) (s : AzIoTSasToken)
    (now : Nat) (expiryTimeInMinutes : Nat) : Nat × AzIoTSasToken :=
  let expiration : Nat := now % U32 + expiryTimeInMinutes * 60 % U32
  let s1 : AzIoTSasToken := { s with expirationUnixTime := expiration % U32 }
  match env.getSignature expiration 256 with
  | none => (1, s1)
  | some toSign =>
    match env.b64decode s1.deviceKey s1.signatureBufferSize with
    | none => (1, s1)
    | some decodedKey =>
      match env.b64encode (env.hmac decodedKey toSign) 256 with
      | none => (1, s1)
      | some b64sig =>
        match env.getPassword expiration b64sig s1.sasTokenBufferSize with
        | none => (1, s1)
        | some pwd => (0, { s1 with sasToken := pwd })

/-- `AzIoTSasToken::IsExpired` (source lines 111-114):
`get_unix_time_now() >= expirationUnixTime` as a `uint32_t` comparison. -/
def AzIoTSasToken.IsExpired (s : AzIoTSasToken) (now : Nat) : Bool :=
  decide (now % U32 ≥ s.expirationUnixTime)

/-- `AzIoTSasToken::Get` (source lines 116-119): returns the current
token view. -/
def AzIoTSasToken.Get (s : AzIoTSasToken) : List Nat :=
  s.sasToken

/-- The four fallible stages of `Generate`, in source order. -/
inductive GenStage where
  | canonicalization
  | keyDecode
  | signatureEncode
  | formatting
  deriving DecidableEq

/-- The stage at which `Generate`'s control flow takes an early
error-return branch, mirroring the four `return 1` sites of source lines
72, 80, 91 and 104; `none` when the call reaches the success return. -/
def AzIoTSasToken.failedStage (env : ExternalEnv) (s : AzIoTSasToken)
    (now : Nat) (expiryTimeInMinutes : Nat) : Option GenStage :=
  let expiration : Nat := now % U32 + expiryTimeInMinutes * 60 % U32
  match env.getSignature expiration 256 with
  | none => some GenStage.canonicalization
  | some toSign =>
    match env.b64decode s.deviceKey s.signatureBufferSize with
    | none => some GenStage.keyDecode
    | some decodedKey =>
      match env.b64encode (env.hmac decodedKey toSign) 256 with
      | none => some GenStage.signatureEncode
      | some b64sig =>
        match env.getPassword expiration b64sig s.sasTokenBufferSize with
        | none => some GenStage.formatting
        | some _ => none

/-- A benign environment in which all four stages succeed, with a fixed
non-empty password. -/
def envOk : ExternalEnv :=
  { getSignature := fun _ _ => some [1]
    b64decode := fun _ _ => some [2]
    hmac := fun _ _ => List.replicate 32 0
    b64encode := fun _ _ => some [3]
    getPassword := fun _ _ _ => some [5, 6] }

/-- An environment whose canonicalization stage always fails. -/
def envFailCanon : ExternalEnv :=
  { envOk with getSignature := fun _ _ => none }

/-- An environment whose key-decode stage always fails. -/
def envFailDecode : ExternalEnv :=
  { envOk with b64decode := fun _ _ => none }

/-- A freshly constructed generator used in concrete runs. -/
def s0 : AzIoTSasToken := AzIoTSasToken.construct [65] 64 256

/-- The expiration field is stored unconditionally at the start of
`Generate`, on success and on every failure path alike. -/
theorem Generate_expirationUnixTime (env : ExternalEnv) (s : AzIoTSasToken)
    (now L : Nat) :
    ((AzIoTSasToken.Generate env s now L).2).expirationUnixTime
      = (now % U32 + L * 60 % U32) % U32 := by
  simp only [AzIoTSasToken.Generate]
  repeat' split
  all_goals rfl

/-- Every failure path of `Generate` leaves the token view unchanged. -/
theorem Generate_fail_sasToken (env : ExternalEnv) (s : AzIoTSasToken)
    (now L : Nat) (h : (AzIoTSasToken.Generate env s now L).1 ≠ 0) :
    ((AzIoTSasToken.Generate env s now L).2).sasToken = s.sasToken := by
  revert h
  simp only [AzIoTSasToken.Generate]
  repeat' split
  all_goals intro h
  all_goals first
    | rfl
    | exact absurd rfl h

/-- On success the token view is exactly the password produced by the
formatter stage. -/
theorem Generate_success_sasToken (env : ExternalEnv) (s : AzIoTSasToken)
    (now L : Nat) (h : (AzIoTSasToken.Generate env s now L).1 = 0) :
    ∃ b64sig,
      env.getPassword (now % U32 + L * 60 % U32) b64sig s.sasTokenBufferSize
        = some ((AzIoTSasToken.Generate env s now L).2).sasToken := by
  revert h
  simp only [AzIoTSasToken.Generate]
  repeat' split
  all_goals intro h
  all_goals first
    | exact absurd h one_ne_zero
    | exact ⟨_, by assumption⟩

/-- C1: the claim that a failed `Generate` leaves both the prior token and
the prior expiration (as observed through `IsExpired`) unchanged is false:
after a successful `Generate` at time 500 with a 10-minute lifetime
(expiration 1100), a `Generate` failing at the canonicalization stage at
time 600 with a 1-minute lifetime overwrites the expiration with 660, so
`IsExpired` at time 700 flips from false to true. -/
theorem C1_counterexample :
    (AzIoTSasToken.Generate envOk s0 500 10).1 = 0 ∧
    (AzIoTSasToken.Generate envFailCanon
      (AzIoTSasToken.Generate envOk s0 500 10).2 600 1).1 ≠ 0 ∧
    ((AzIoTSasToken.Generate envOk s0 500 10).2).IsExpired 700 = false ∧
    ((AzIoTSasToken.Generate envFailCanon
      (AzIoTSasToken.Generate envOk s0 500 10).2 600 1).2).IsExpired 700
        = true := by
  decide

/-- C1 (amended): a failed `Generate` leaves the prior token returned by
`Get()` unchanged, but it does overwrite the stored expiration epoch with
`now + lifetime*60` (computed in 32-bit wrapping arithmetic). -/
theorem C1_amended (env : ExternalEnv) (s : AzIoTSasToken) (now L : Nat)
    (h : (AzIoTSasToken.Generate env s now L).1 ≠ 0) :
    ((AzIoTSasToken.Generate env s now L).2).Get = s.Get ∧
    ((AzIoTSasToken.Generate env s now L).2).expirationUnixTime
      = (now % U32 + L * 60 % U32) % U32 :=
  ⟨Generate_fail_sasToken env s now L h, Generate_expirationUnixTime env s now L⟩

/-- Witness for C1 (amended) at a concrete failing call. -/
theorem C1_amended_witness :
    ((AzIoTSasToken.Generate envFailCanon s0 600 1).2).Get = s0.Get ∧
    ((AzIoTSasToken.Generate envFailCanon s0 600 1).2).expirationUnixTime
      = (600 % U32 + 1 * 60 % U32) % U32 :=
  C1_amended envFailCanon s0 600 1 (by decide)

/-- C2: the claimed boundary behaviour fails at realizable inputs: a
fully successful `Generate` at time `now0 = 2^32 - 60` with a 1-minute
lifetime stores `(uint32_t)(2^32) = 0` as the expiration, so at the
clock reading `now0 + 1*60 - 1 = 2^32 - 1` the token already counts as
expired, where the claim says it is not. -/
theorem C2_counterexample :
    (AzIoTSasToken.Generate envOk s0 4294967236 1).1 = 0 ∧
    ((AzIoTSasToken.Generate envOk s0 4294967236 1).2).IsExpired
      (4294967236 + 1 * 60 - 1) = true := by
  decide

/-- C2 (amended): `IsExpired()` is true iff `now() >= expirationUnixTime`
(with `now` in `uint32_t` range, as the time source returns), and for a
`Generate` at time `now0` with lifetime `L` whose expiration
`now0 + L*60` is representable in 32 bits, the token counts as expired
exactly at the boundary second `now0 + L*60` and not at
`now0 + L*60 - 1`. -/
theorem C2_expiry_boundary (env : ExternalEnv) (s sg : AzIoTSasToken)
    (now now0 L : Nat) (hnow : now < U32) (hL : 0 < L)
    (hov : now0 + L * 60 < U32) :
    (s.IsExpired now = true ↔ s.expirationUnixTime ≤ now) ∧
    ((AzIoTSasToken.Generate env sg now0 L).2).IsExpired (now0 + L * 60)
      = true ∧
    ((AzIoTSasToken.Generate env sg now0 L).2).IsExpired (now0 + L * 60 - 1)
      = false := by
  have hnow0 : now0 < U32 := lt_of_le_of_lt (Nat.le_add_right _ _) hov
  have hL60 : L * 60 < U32 := lt_of_le_of_lt (Nat.le_add_left _ _) hov
  have hexp : ((AzIoTSasToken.Generate env sg now0 L).2).expirationUnixTime
      = now0 + L * 60 := by
    rw [Generate_expirationUnixTime, Nat.mod_eq_of_lt hnow0,
      Nat.mod_eq_of_lt hL60, Nat.mod_eq_of_lt hov]
  refine ⟨?_, ?_, ?_⟩
  · simp [AzIoTSasToken.IsExpired, Nat.mod_eq_of_lt hnow]
  · simp [AzIoTSasToken.IsExpired, hexp, Nat.mod_eq_of_lt hov]
  · have hlt : now0 + L * 60 - 1 < U32 :=
      lt_of_le_of_lt (Nat.sub_le _ _) hov
    simp only [AzIoTSasToken.IsExpired, hexp, Nat.mod_eq_of_lt hlt,
      decide_eq_false_iff_not, ge_iff_le, not_le]
    omega

/-- Witness for C2 at concrete values. -/
theorem C2_expiry_boundary_witness :
    (s0.IsExpired 5 = true ↔ s0.expirationUnixTime ≤ 5) ∧
    ((AzIoTSasToken.Generate envOk s0 100 1).2).IsExpired (100 + 1 * 60)
      = true ∧
    ((AzIoTSasToken.Generate envOk s0 100 1).2).IsExpired (100 + 1 * 60 - 1)
      = false :=
  C2_expiry_boundary envOk s0 s0 5 100 1 (by decide) (by decide) (by decide)

/-- C3: the expiration epoch is stored unconditionally at the start of
every `Generate` call, before any of the fallible stages, so the stored
value equals `(now % 2^32 + lifetime*60 % 2^32) % 2^32` on success and on
every failure path alike. -/
theorem C3_expiration_committed_first (env : ExternalEnv) (s : AzIoTSasToken)
    (now L : Nat) :
    ((AzIoTSasToken.Generate env s now L).2).expirationUnixTime
      = (now % U32 + L * 60 % U32) % U32 :=
  Generate_expirationUnixTime env s now L

/-- C4: the claim fails for `lifetimeMinutes = 2^30`: the `unsigned int`
product `2^30 * 60` wraps to 0 mod `2^32`, so a fully successful
`Generate` at time 1000 stores expiration 1000 and an immediate
`IsExpired()` returns true, although the lifetime is positive and every
stage succeeded with a non-empty token. -/
theorem C4_counterexample :
    0 < 1073741824 ∧
    (AzIoTSasToken.Generate envOk s0 1000 1073741824).1 = 0 ∧
    ((AzIoTSasToken.Generate envOk s0 1000 1073741824).2).Get ≠ [] ∧
    ((AzIoTSasToken.Generate envOk s0 1000 1073741824).2).IsExpired 1000
      = true := by
  decide

/-- C4 (amended): for positive lifetimes whose expiration `now + L*60`
stays below `2^32`, and provided the external token formatter only
produces non-empty passwords, a successful `Generate` is immediately not
expired and `Get()` returns a non-empty token. -/
theorem C4_amended (env : ExternalEnv) (s : AzIoTSasToken) (now L : Nat)
    (hL : 0 < L) (hov : now + L * 60 < U32)
    (hpwd : ∀ e b c r, env.getPassword e b c = some r → r ≠ [])
    (hres : (AzIoTSasToken.Generate env s now L).1 = 0) :
    ((AzIoTSasToken.Generate env s now L).2).IsExpired now = false ∧
    ((AzIoTSasToken.Generate env s now L).2).Get ≠ [] := by
  have hnow : now < U32 := lt_of_le_of_lt (Nat.le_add_right _ _) hov
  have hL60 : L * 60 < U32 := lt_of_le_of_lt (Nat.le_add_left _ _) hov
  have hexp : ((AzIoTSasToken.Generate env s now L).2).expirationUnixTime
      = now + L * 60 := by
    rw [Generate_expirationUnixTime, Nat.mod_eq_of_lt hnow,
      Nat.mod_eq_of_lt hL60, Nat.mod_eq_of_lt hov]
  constructor
  · simp only [AzIoTSasToken.IsExpired, hexp, Nat.mod_eq_of_lt hnow,
      decide_eq_false_iff_not, ge_iff_le, not_le]
    omega
  · obtain ⟨b64sig, hp⟩ := Generate_success_sasToken env s now L hres
    exact hpwd _ _ _ _ hp

/-- Witness for C4 (amended) at a concrete successful call. -/
theorem C4_amended_witness :
    ((AzIoTSasToken.Generate envOk s0 100 1).2).IsExpired 100 = false ∧
    ((AzIoTSasToken.Generate envOk s0 100 1).2).Get ≠ [] :=
  C4_amended envOk s0 100 1 (by decide) (by decide)
    (by
      intro e b c r h
      simp only [envOk, Option.some.injEq] at h
      simp [← h])
    (by decide)

/-- C5: the claim that the stored expiration equals `now + L*60` in exact
unbounded arithmetic for every positive lifetime is false: at `now = 0`,
`L = 2^30` the stored epoch is `0`, not `2^30 * 60 = 64424509440`, because
the `unsigned int` product wraps mod `2^32`. -/
theorem C5_counterexample :
    ((AzIoTSasToken.Generate envOk s0 0 1073741824).2).expirationUnixTime
      ≠ 0 + 1073741824 * 60 := by
  decide

/-- C5 (amended): the stored expiration equals `now + L*60` exactly when
that sum (and hence each operand) is below `2^32`; in general the stored
value is `(now % 2^32 + L*60 % 2^32) % 2^32`. -/
theorem C5_amended (env : ExternalEnv) (s : AzIoTSasToken) (now L : Nat)
    (hov : now + L * 60 < U32) :
    ((AzIoTSasToken.Generate env s now L).2).expirationUnixTime
      = now + L * 60 := by
  rw [Generate_expirationUnixTime]
  simp only [U32] at *
  omega

/-- Witness for C5 (amended) at a concrete call. -/
theorem C5_amended_witness :
    ((AzIoTSasToken.Generate envOk s0 1700000000 60).2).expirationUnixTime
      = 1700000000 + 60 * 60 :=
  C5_amended envOk s0 1700000000 60 (by decide)

/-- C6: the monotonicity claim is false as stated: with time constant at
1000 and positive lifetimes 2 then 1 minute, both `Generate` calls
succeed but the stored expiration drops from 1120 to 1060. -/
theorem C6_counterexample :
    (AzIoTSasToken.Generate envOk s0 1000 2).1 = 0 ∧
    (AzIoTSasToken.Generate envOk
      (AzIoTSasToken.Generate envOk s0 1000 2).2 1000 1).1 = 0 ∧
    ((AzIoTSasToken.Generate envOk
      (AzIoTSasToken.Generate envOk s0 1000 2).2 1000 1).2).expirationUnixTime
      < ((AzIoTSasToken.Generate envOk s0 1000 2).2).expirationUnixTime := by
  decide

/-- C6 (amended): across two successive `Generate` calls the stored
expiration epoch is non-decreasing provided the time source is
non-decreasing, the requested lifetime does not decrease, and the later
expiration `now2 + L2*60` stays below `2^32`; success of the calls is not
needed since the expiration is stored unconditionally. -/
theorem C6_amended (env1 env2 : ExternalEnv) (s : AzIoTSasToken)
    (now1 L1 now2 L2 : Nat) (ht : now1 ≤ now2) (hL : L1 ≤ L2)
    (hov : now2 + L2 * 60 < U32) :
    ((AzIoTSasToken.Generate env1 s now1 L1).2).expirationUnixTime ≤
      ((AzIoTSasToken.Generate env2 (AzIoTSasToken.Generate env1 s now1 L1).2
        now2 L2).2).expirationUnixTime := by
  rw [Generate_expirationUnixTime, Generate_expirationUnixTime]
  simp only [U32] at *
  omega

/-- Witness for C6 (amended) at concrete calls. -/
theorem C6_amended_witness :
    ((AzIoTSasToken.Generate envOk s0 1000 2).2).expirationUnixTime ≤
      ((AzIoTSasToken.Generate envFailCanon
        (AzIoTSasToken.Generate envOk s0 1000 2).2 1500 2).2).expirationUnixTime :=
  C6_amended envOk envFailCanon s0 1000 2 1500 2 (by decide) (by decide)
    (by decide)

/-- C7: a freshly constructed generator has expiration epoch 0 (the
minimum representable value), so `IsExpired()` returns true at every
time before any successful `Generate`. -/
theorem C7_fresh_generator_expired (deviceKey : List Nat)
    (sigCap tokCap now : Nat) :
    (AzIoTSasToken.construct deviceKey sigCap tokCap).expirationUnixTime = 0 ∧
    (AzIoTSasToken.construct deviceKey sigCap tokCap).IsExpired now = true := by
  refine ⟨rfl, ?_⟩
  simp [AzIoTSasToken.IsExpired, AzIoTSasToken.construct]

/-- C8: the claim that different failing stages yield different result
codes is false: a call failing at the canonicalization stage and a call
failing at the key-decode stage both return the same code 1. -/
theorem C8_counterexample :
    AzIoTSasToken.failedStage envFailCanon s0 0 1
      = some GenStage.canonicalization ∧
    AzIoTSasToken.failedStage envFailDecode s0 0 1
      = some GenStage.keyDecode ∧
    (AzIoTSasToken.Generate envFailCanon s0 0 1).1
      = (AzIoTSasToken.Generate envFailDecode s0 0 1).1 ∧
    (AzIoTSasToken.Generate envFailCanon s0 0 1).1 ≠ 0 := by
  decide

/-- C8 (amended): `Generate` reports failures through a single result
code: it returns 0 exactly when no stage failed and 1 exactly when some
stage failed, so the code does not distinguish which of the four stages
failed. -/
theorem C8_amended (env : ExternalEnv) (s : AzIoTSasToken) (now L : Nat) :
    ((AzIoTSasToken.Generate env s now L).1 = 0
      ↔ AzIoTSasToken.failedStage env s now L = none) ∧
    ((AzIoTSasToken.Generate env s now L).1 = 1
      ↔ (AzIoTSasToken.failedStage env s now L).isSome = true) := by
  simp only [AzIoTSasToken.Generate, AzIoTSasToken.failedStage]
  repeat' split
  all_goals simp_all

/-- C9: the signature pipeline is deterministic: two `Generate` runs with
the same collaborators, device key, buffer capacities, time and lifetime
produce byte-identical tokens, whatever token view or expiration each
generator held before; a successful run forces the other to succeed with
the same output. -/
theorem C9_determinism (env : ExternalEnv) (key tok1 tok2 : List Nat)
    (sigCap tokCap e1 e2 now L : Nat)
    (h : (AzIoTSasToken.Generate env ⟨key, sigCap, tokCap, tok1, e1⟩ now L).1
      = 0) :
    (AzIoTSasToken.Generate env ⟨key, sigCap, tokCap, tok2, e2⟩ now L).1
      = 0 ∧
    ((AzIoTSasToken.Generate env ⟨key, sigCap, tokCap, tok2, e2⟩ now L).2).Get
      = ((AzIoTSasToken.Generate env ⟨key, sigCap, tokCap, tok1, e1⟩
          now L).2).Get := by
  revert h
  simp only [AzIoTSasToken.Generate, AzIoTSasToken.Get]
  repeat' split
  all_goals intro h
  all_goals simp_all

/-- Witness for C9: two generators differing in prior token and
expiration produce the same token. -/
theorem C9_determinism_witness :
    (AzIoTSasToken.Generate envOk ⟨[65], 64, 256, [9], 7⟩ 100 1).1 = 0 ∧
    ((AzIoTSasToken.Generate envOk ⟨[65], 64, 256, [9], 7⟩ 100 1).2).Get
      = ((AzIoTSasToken.Generate envOk ⟨[65], 64, 256, [8], 3⟩ 100 1).2).Get :=
  C9_determinism envOk [65] [8] [9] 64 256 3 7 100 1 (by decide)

/-- C10: the token view is assigned only by the success path: every
`Generate` call either leaves `sasToken` exactly as it was (all four
error-return paths), or it succeeded and `sasToken` is the password the
formatter stage produced. -/
theorem C10_token_frame (env : ExternalEnv) (s : AzIoTSasToken)
    (now L : Nat) :
    ((AzIoTSasToken.Generate env s now L).2).sasToken = s.sasToken ∨
    ((AzIoTSasToken.Generate env s now L).1 = 0 ∧
      ∃ b64sig, env.getPassword (now % U32 + L * 60 % U32) b64sig
          s.sasTokenBufferSize
        = some ((AzIoTSasToken.Generate env s now L).2).sasToken) := by
  by_cases h : (AzIoTSasToken.Generate env s now L).1 = 0
  · exact Or.inr ⟨h, Generate_success_sasToken env s now L h⟩
  · exact Or.inl (Generate_fail_sasToken env s now L h)
